import Mathlib

/-!
Shallow embedding of the section-driven record manager implemented in
src/reference/app.tsx. The React component state and its handlers
(loadRecords, handleSave, handleDelete, openCreateDialog, openEditDialog,
the Dialog onOpenChange and the form onCancel callbacks, and the
Tabs onValueChange / useEffect wiring) are modelled as pure functions;
network requests and toast notifications are explicit effect lists, and
the asynchronous resolution of an in-flight loadRecords call is a
separate event so that interleavings of several reloads can be stated.
-/

namespace MSDH

/-- The nine entity categories (SectionType in app.tsx). -/
inductive SectionType where
  | funding_opportunity
  | application
  | budget
  | budget_code
  | grant
  | subgrantee_award
  | contract
  | invoice
  | compliance
deriving DecidableEq

/-- One persisted entity: a server-assigned id plus an opaque field
mapping (the component never inspects field semantics). -/
structure Record where
  id : String
  fields : List (String × String)
deriving DecidableEq

/-- Opaque form payload submitted on save. -/
abbrev Fields := List (String × String)

/-- Outcome of parsing a response body as JSON, restricted to the parts
the component reads: the error field of failure bodies and the records
field of list bodies. An unparsable body carries the message of the
exception thrown by response.json(). -/
inductive BodyParse where
  | parsed (errorField : Option String) (recordsField : Option (List Record))
  | unparsable (msg : String)
deriving DecidableEq

/-- Outcome of one fetch round trip: a response with its ok flag and
body, or a transport-level failure whose message is thrown. -/
inductive FetchOutcome where
  | response (ok : Bool) (body : BodyParse)
  | transportFailure (msg : String)
deriving DecidableEq

/-- Toast notifications emitted through the sonner toast calls. -/
inductive Notification where
  | success (msg : String)
  | error (msg : String)
deriving DecidableEq

/-- Network requests issued by the component against the API base. -/
inductive Request where
  | get (sec : SectionType)
  | post (sec : SectionType) (body : Fields)
  | put (sec : SectionType) (id : String) (body : Fields)
  | del (sec : SectionType) (id : String)
deriving DecidableEq

/-- The useState cells of App (lines 97-102 of app.tsx). -/
structure AppState where
  showLanding : Bool
  activeSection : SectionType
  records : List Record
  loading : Bool
  dialogOpen : Bool
  editingRecord : Option Record
deriving DecidableEq

/-- Initial state of the component as declared by the useState calls. -/
def initState : AppState :=
  { showLanding := true
    activeSection := SectionType.funding_opportunity
    records := []
    loading := false
    dialogOpen := false
    editingRecord := none }

/-- The edit-session mode abstraction used by the specification: dialog
closed means Closed, open without an editingRecord means Creating, open
with one means Editing. -/
inductive SessionMode where
  | closed
  | creating
  | editing
deriving DecidableEq

def mode (s : AppState) : SessionMode :=
  if s.dialogOpen then
    (if s.editingRecord.isSome then SessionMode.editing else SessionMode.creating)
  else SessionMode.closed

/-- Generic fallback label of the load error path (line 119). -/
def loadFailLabel : String := "Failed to load records"

/-- Generic fallback label of the save error path (line 151). -/
def saveFailLabel : String := "Failed to save record"

/-- Generic fallback label of the delete error path (line 177). -/
def deleteFailLabel : String := "Failed to delete record"

/-- The synchronous start of loadRecords (line 109): setLoading(true).
The GET request for the section argument is recorded by the caller. -/
def loadRecordsStart (s : AppState) : AppState :=
  { s with loading := true }

/-- The resolution of an in-flight loadRecords call (lines 117-130): an
ok response with a parseable body stores data.records or the empty list;
every other outcome reaches the catch block, which emits the toast error
built from the thrown message and empties the list; the finally block
clears loading. The handler applies its result unconditionally, with no
check that the call still belongs to the active section. -/
def loadRecordsResolve (s : AppState) : FetchOutcome → AppState × List Notification
  | FetchOutcome.response true (BodyParse.parsed _ rf) =>
      ({ s with records := rf.getD [], loading := false }, [])
  | FetchOutcome.response true (BodyParse.unparsable m) =>
      ({ s with records := [], loading := false },
       [Notification.error (loadFailLabel ++ ": " ++ m)])
  | FetchOutcome.response false (BodyParse.parsed ef _) =>
      ({ s with records := [], loading := false },
       [Notification.error (loadFailLabel ++ ": " ++ ef.getD loadFailLabel)])
  | FetchOutcome.response false (BodyParse.unparsable m) =>
      ({ s with records := [], loading := false },
       [Notification.error (loadFailLabel ++ ": " ++ m)])
  | FetchOutcome.transportFailure m =>
      ({ s with records := [], loading := false },
       [Notification.error (loadFailLabel ++ ": " ++ m)])

/-- Whether a fetch outcome makes loadRecords take its catch path. -/
def loadFails : FetchOutcome → Bool
  | FetchOutcome.response true (BodyParse.parsed _ _) => false
  | _ => true

/-- The message of the error caught by the loadRecords catch block. -/
def loadFailMsg : FetchOutcome → String
  | FetchOutcome.response _ (BodyParse.parsed ef _) => ef.getD loadFailLabel
  | FetchOutcome.response _ (BodyParse.unparsable m) => m
  | FetchOutcome.transportFailure m => m

/-- Whether a fetch outcome makes handleSave / handleDelete take the
catch path (for those handlers an ok response never parses the body, so
only a non-ok response or a transport failure fails). -/
def isFailureOutcome : FetchOutcome → Bool
  | FetchOutcome.response ok _ => !ok
  | FetchOutcome.transportFailure _ => true

/-- The message of the error caught by a mutation handler: the body
error field if present, else the generic label of that operation; an
unparsable failure body throws its own parse message instead. -/
def mutFailMsg (fallback : String) : FetchOutcome → String
  | FetchOutcome.response _ (BodyParse.parsed ef _) => ef.getD fallback
  | FetchOutcome.response _ (BodyParse.unparsable m) => m
  | FetchOutcome.transportFailure m => m

/-- Result of one handler invocation: the new component state plus the
notifications and network requests it emitted, in order. -/
structure StepOut where
  state : AppState
  notes : List Notification
  reqs : List Request
deriving DecidableEq

/-- Toast message of a successful save (line 154). -/
def saveSuccessMsg (s : AppState) : String :=
  if s.editingRecord.isSome then "Record updated successfully"
  else "Record created successfully"

/-- The request handleSave issues (lines 135-141): PUT against the
record path when editingRecord is set, POST against the collection path
otherwise. -/
def saveRequestOf (s : AppState) (d : Fields) : Request :=
  match s.editingRecord with
  | some r => Request.put s.activeSection r.id d
  | none => Request.post s.activeSection d

/-- handleSave (lines 133-162): on ok it toasts success, closes the
dialog, clears editingRecord and starts loadRecords(activeSection); on
any failure it toasts the error and leaves every state cell untouched. -/
def handleSave (s : AppState) (d : Fields) (out : FetchOutcome) : StepOut :=
  match out with
  | FetchOutcome.response true _ =>
      { state := loadRecordsStart { s with dialogOpen := false, editingRecord := none }
        notes := [Notification.success (saveSuccessMsg s)]
        reqs := [saveRequestOf s d, Request.get s.activeSection] }
  | FetchOutcome.response false (BodyParse.parsed ef _) =>
      { state := s
        notes := [Notification.error (saveFailLabel ++ ": " ++ ef.getD saveFailLabel)]
        reqs := [saveRequestOf s d] }
  | FetchOutcome.response false (BodyParse.unparsable m) =>
      { state := s
        notes := [Notification.error (saveFailLabel ++ ": " ++ m)]
        reqs := [saveRequestOf s d] }
  | FetchOutcome.transportFailure m =>
      { state := s
        notes := [Notification.error (saveFailLabel ++ ": " ++ m)]
        reqs := [saveRequestOf s d] }

/-- handleDelete (lines 164-186): returns immediately when the confirm
dialog was declined; otherwise issues the DELETE, and on ok toasts
success and starts loadRecords(activeSection), on failure toasts the
error and changes nothing. -/
def handleDelete (s : AppState) (id : String) (confirmed : Bool)
    (out : FetchOutcome) : StepOut :=
  match confirmed with
  | false => { state := s, notes := [], reqs := [] }
  | true =>
    match out with
    | FetchOutcome.response true _ =>
        { state := loadRecordsStart s
          notes := [Notification.success "Record deleted successfully"]
          reqs := [Request.del s.activeSection id, Request.get s.activeSection] }
    | FetchOutcome.response false (BodyParse.parsed ef _) =>
        { state := s
          notes := [Notification.error (deleteFailLabel ++ ": " ++ ef.getD deleteFailLabel)]
          reqs := [Request.del s.activeSection id] }
    | FetchOutcome.response false (BodyParse.unparsable m) =>
        { state := s
          notes := [Notification.error (deleteFailLabel ++ ": " ++ m)]
          reqs := [Request.del s.activeSection id] }
    | FetchOutcome.transportFailure m =>
        { state := s
          notes := [Notification.error (deleteFailLabel ++ ": " ++ m)]
          reqs := [Request.del s.activeSection id] }

/-- User and network events driving the component. mount fires the
initial useEffect load; selectSection is the Tabs onValueChange followed
by the useEffect on activeSection (which re-runs only when the value
changed); loadResolve is the asynchronous resolution of an in-flight
loadRecords call; save and del model one full mutation round trip. -/
inductive Event where
  | mount
  | selectSection (sec : SectionType)
  | loadResolve (out : FetchOutcome)
  | openCreateDialog
  | openEditDialog (r : Record)
  | setDialogOpen (b : Bool)
  | onCancel
  | save (d : Fields) (out : FetchOutcome)
  | del (id : String) (confirmed : Bool) (out : FetchOutcome)

/-- One step of the component: dispatches an event to the handler code
of app.tsx translated above. -/
def step (s : AppState) : Event → StepOut
  | Event.mount =>
      { state := loadRecordsStart s, notes := [], reqs := [Request.get s.activeSection] }
  | Event.selectSection sec =>
      if sec = s.activeSection then { state := s, notes := [], reqs := [] }
      else
        { state := loadRecordsStart { s with activeSection := sec }
          notes := []
          reqs := [Request.get sec] }
  | Event.loadResolve out =>
      { state := (loadRecordsResolve s out).1
        notes := (loadRecordsResolve s out).2
        reqs := [] }
  | Event.openCreateDialog =>
      { state := { s with editingRecord := none, dialogOpen := true }, notes := [], reqs := [] }
  | Event.openEditDialog r =>
      { state := { s with editingRecord := some r, dialogOpen := true }, notes := [], reqs := [] }
  | Event.setDialogOpen b =>
      { state := { s with dialogOpen := b }, notes := [], reqs := [] }
  | Event.onCancel =>
      { state := { s with dialogOpen := false, editingRecord := none }, notes := [], reqs := [] }
  | Event.save d out => handleSave s d out
  | Event.del id c out => handleDelete s id c out

/-- Runs a sequence of events, keeping only the final state. -/
def run (s : AppState) : List Event → AppState
  | [] => s
  | e :: es => run (step s e).state es

/-- A concrete record returned by the funding_opportunity list call. -/
def recA : Record := { id := "a1", fields := [] }

/-- A concrete record returned by the application list call. -/
def recB : Record := { id := "b1", fields := [] }

/-- An ok list response whose body holds the given records array. -/
def okBody (rs : List Record) : FetchOutcome :=
  FetchOutcome.response true (BodyParse.parsed none (some rs))

/-- The interleaving of claim C1: mount issues the funding_opportunity
load, the user switches to application (second load issued), the
application call resolves first with recB, then the stale
funding_opportunity call resolves late with recA. -/
def c1Final : AppState :=
  run initState
    [Event.mount,
     Event.selectSection SectionType.application,
     Event.loadResolve (okBody [recB]),
     Event.loadResolve (okBody [recA])]

/-- Claim C1, evaluated at the failing interleaving: loadRecords applies
every resolved response unconditionally (there is no sectionId tag in
app.tsx), so the late stale funding_opportunity result overwrites the
list of the now-active application category, contrary to the latest
requested sectionId rule of the specification. -/
theorem c1_stale_reload_overwrites :
    c1Final.activeSection = SectionType.application ∧
    c1Final.records = [recA] ∧
    c1Final.records ≠ [recB] := by
  decide

/-- State of claim C2 after opening an edit session on recA and then
switching the active section to application. -/
def c2Final : AppState :=
  run initState [Event.openEditDialog recA, Event.selectSection SectionType.application]

/-- Claim C2, counterexample: after openEdit(recA) followed by
selectSection(application), the session is still open in Editing mode
with its target intact, and the reload of the new category was already
issued by that very step, so the session was not forced to Closed
before the new category reload began. -/
theorem c2_switch_leaves_session_open :
    mode c2Final ≠ SessionMode.closed ∧
    c2Final.dialogOpen = true ∧
    c2Final.editingRecord = some recA ∧
    (step (run initState [Event.openEditDialog recA])
        (Event.selectSection SectionType.application)).reqs
      = [Request.get SectionType.application] := by
  decide

/-- Claim C2, amended: switching to a different section sets the new
active category and issues its reload, but leaves the edit session
exactly as it was — dialog visibility and edit target unchanged; no
force-close of the session happens on a category switch. -/
theorem c2_section_switch_preserves_session (s : AppState) (sec : SectionType)
    (h : sec ≠ s.activeSection) :
    (step s (Event.selectSection sec)).state.dialogOpen = s.dialogOpen ∧
    (step s (Event.selectSection sec)).state.editingRecord = s.editingRecord ∧
    (step s (Event.selectSection sec)).state.activeSection = sec ∧
    (step s (Event.selectSection sec)).reqs = [Request.get sec] := by
  simp [step, loadRecordsStart, h]

/-- Witness for the amended claim C2 at a concrete state and section. -/
theorem c2_section_switch_preserves_session_witness :
    SectionType.application ≠ initState.activeSection ∧
    ((step initState (Event.selectSection SectionType.application)).state.dialogOpen
        = initState.dialogOpen ∧
     (step initState (Event.selectSection SectionType.application)).state.editingRecord
        = initState.editingRecord ∧
     (step initState (Event.selectSection SectionType.application)).state.activeSection
        = SectionType.application ∧
     (step initState (Event.selectSection SectionType.application)).reqs
        = [Request.get SectionType.application]) :=
  ⟨by decide, c2_section_switch_preserves_session initState SectionType.application (by decide)⟩

/-- State of claim C3 after opening an edit session on recA and then
dismissing the dialog through the Dialog onOpenChange callback. -/
def c3Final : AppState :=
  run initState [Event.openEditDialog recA, Event.setDialogOpen false]

/-- Claim C3, counterexample: the Dialog onOpenChange callback is plain
setDialogOpen (line 348), so dismissing the dialog after openEdit
reaches a state whose mode is Closed yet still carries the edit target
— the claimed target-iff-Editing invariant fails on this reachable
state. -/
theorem c3_closed_state_retains_target :
    mode c3Final = SessionMode.closed ∧
    c3Final.editingRecord = some recA := by
  decide

/-- Claim C3, amended: openCreate yields Creating with no target,
openEdit(r) yields Editing with target r, cancel and save-success clear
the target, but dismissing the dialog through onOpenChange only hides
the dialog and retains whatever target was set, so a Closed state
reached that way may still carry the previous edit target until the
next openCreate or openEdit. -/
theorem c3_target_discipline (s : AppState) (r : Record) (d : Fields) (b : BodyParse) :
    (step s Event.openCreateDialog).state.editingRecord = none ∧
    (step s Event.openCreateDialog).state.dialogOpen = true ∧
    (step s (Event.openEditDialog r)).state.editingRecord = some r ∧
    (step s (Event.openEditDialog r)).state.dialogOpen = true ∧
    (step s Event.onCancel).state.editingRecord = none ∧
    (step s Event.onCancel).state.dialogOpen = false ∧
    (step s (Event.save d (FetchOutcome.response true b))).state.editingRecord = none ∧
    (step s (Event.setDialogOpen false)).state.editingRecord = s.editingRecord := by
  simp [step, handleSave, loadRecordsStart]

/-- A GET request is never the request a save issues (that is a PUT or
a POST), whatever the session target. -/
theorem get_ne_saveRequestOf (s : AppState) (d : Fields) (sec : SectionType) :
    Request.get sec ≠ saveRequestOf s d := by
  cases hs : s.editingRecord <;> simp [saveRequestOf, hs]

/-- Claim C4: for every state (in particular the Creating and Editing
ones) a save whose round trip returns an ok response emits exactly one
success notification, closes the session (dialog closed, no target,
mode Closed), and starts a reload of the currently active category
(loading set, GET for activeSection issued). -/
theorem c4_save_success (s : AppState) (d : Fields) (b : BodyParse) :
    (step s (Event.save d (FetchOutcome.response true b))).notes
        = [Notification.success (saveSuccessMsg s)] ∧
    mode (step s (Event.save d (FetchOutcome.response true b))).state = SessionMode.closed ∧
    (step s (Event.save d (FetchOutcome.response true b))).state.dialogOpen = false ∧
    (step s (Event.save d (FetchOutcome.response true b))).state.editingRecord = none ∧
    Request.get s.activeSection ∈ (step s (Event.save d (FetchOutcome.response true b))).reqs ∧
    (step s (Event.save d (FetchOutcome.response true b))).state.loading = true := by
  simp [step, handleSave, loadRecordsStart, mode]

/-- Claim C5: a save whose round trip fails (non-2xx response or
transport failure) leaves the whole component state unchanged — the
session is still Creating or still Editing with the same target and the
dialog still open — emits exactly one error notification carrying the
failure message, and issues no reload. -/
theorem c5_save_failure (s : AppState) (d : Fields) (out : FetchOutcome)
    (h : isFailureOutcome out = true) :
    (step s (Event.save d out)).state = s ∧
    (step s (Event.save d out)).notes
        = [Notification.error (saveFailLabel ++ ": " ++ mutFailMsg saveFailLabel out)] ∧
    (∀ sec, Request.get sec ∉ (step s (Event.save d out)).reqs) := by
  cases out with
  | response ok b =>
      cases ok with
      | true => simp [isFailureOutcome] at h
      | false =>
          cases b with
          | parsed ef rf =>
              refine ⟨rfl, rfl, fun sec hmem => ?_⟩
              simp only [step, handleSave, List.mem_singleton] at hmem
              exact get_ne_saveRequestOf s d sec hmem
          | unparsable m =>
              refine ⟨rfl, rfl, fun sec hmem => ?_⟩
              simp only [step, handleSave, List.mem_singleton] at hmem
              exact get_ne_saveRequestOf s d sec hmem
  | transportFailure m =>
      refine ⟨rfl, rfl, fun sec hmem => ?_⟩
      simp only [step, handleSave, List.mem_singleton] at hmem
      exact get_ne_saveRequestOf s d sec hmem

/-- Witness for claim C5 at a concrete state and transport failure. -/
theorem c5_save_failure_witness :
    isFailureOutcome (FetchOutcome.transportFailure "boom") = true ∧
    ((step initState (Event.save [] (FetchOutcome.transportFailure "boom"))).state = initState ∧
     (step initState (Event.save [] (FetchOutcome.transportFailure "boom"))).notes
        = [Notification.error (saveFailLabel ++ ": " ++
            mutFailMsg saveFailLabel (FetchOutcome.transportFailure "boom"))] ∧
     (∀ sec, Request.get sec
        ∉ (step initState (Event.save [] (FetchOutcome.transportFailure "boom"))).reqs)) :=
  ⟨rfl, c5_save_failure initState [] (FetchOutcome.transportFailure "boom") rfl⟩

/-- The state of the scenario of claim C6: the invoice category active. -/
def invoiceState : AppState := { initState with activeSection := SectionType.invoice }

/-- The delete round trip of claim C6: remove of r1 against invoice,
confirmed, answered non-2xx with body error field set to not found. -/
def c6Out : StepOut :=
  step invoiceState
    (Event.del "r1" true
      (FetchOutcome.response false (BodyParse.parsed (some "not found") none)))

/-- Claim C6, counterexample: the thrown error carries the body error
field, but handleDelete toasts the template string of line 184, so the
user-visible notification message is the prefixed string, not exactly
the body error field; the invoice RecordSet is indeed unchanged. -/
theorem c6_notification_carries_label :
    c6Out.notes = [Notification.error "Failed to delete record: not found"] ∧
    Notification.error "not found" ∉ c6Out.notes ∧
    c6Out.state.records = invoiceState.records := by
  decide

/-- Claim C6, amended: for a confirmed delete answered by a non-2xx
response with a parseable body, the message taken from the body is its
error field when present (the generic label otherwise), the single
user-visible notification message is the generic delete label followed
by that message, the state — including the RecordSet — is unchanged, and
only the DELETE request was issued. -/
theorem c6_delete_failure_message (s : AppState) (id : String) (ef : Option String)
    (rf : Option (List Record)) :
    (step s (Event.del id true (FetchOutcome.response false (BodyParse.parsed ef rf)))).notes
        = [Notification.error (deleteFailLabel ++ ": " ++ ef.getD deleteFailLabel)] ∧
    (step s (Event.del id true (FetchOutcome.response false (BodyParse.parsed ef rf)))).state
        = s ∧
    (step s (Event.del id true (FetchOutcome.response false (BodyParse.parsed ef rf)))).reqs
        = [Request.del s.activeSection id] := by
  exact ⟨rfl, rfl, rfl⟩

/-- Claim C7: a delete whose confirmation was declined issues no
network request, emits no notification, and changes no state, whatever
outcome the (never-performed) round trip would have had. -/
theorem c7_delete_requires_confirmation (s : AppState) (id : String) (out : FetchOutcome) :
    (step s (Event.del id false out)).reqs = [] ∧
    (step s (Event.del id false out)).notes = [] ∧
    (step s (Event.del id false out)).state = s := by
  exact ⟨rfl, rfl, rfl⟩

/-- A state with a load in flight, used by the C8 and C9 scenarios. -/
def loadingState : AppState := { initState with loading := true }

/-- Resolution of claim C8: a 2xx list response whose body parses as
JSON but has no records field at all. -/
def c8Out : StepOut :=
  step loadingState
    (Event.loadResolve (FetchOutcome.response true (BodyParse.parsed none none)))

/-- Claim C8, counterexample: a 2xx list response whose parsed body
lacks the records array does not fail — line 123 falls back through
data.records or [] to the empty list, so the operation yields a success
value (no notification, clean non-loading state) instead of a
malformed-response failure. -/
theorem c8_missing_records_field_succeeds :
    c8Out.notes = [] ∧
    c8Out.state.records = [] ∧
    c8Out.state.loading = false := by
  decide

/-- Claim C8, amended: for the list operation, only a 2xx body that
fails JSON parsing is treated as a failure (error notification, empty
list); a parseable body lacking the records array is tolerated as a
successful, silently empty list. -/
theorem c8_list_parse_behavior (s : AppState) (ef : Option String)
    (rf : Option (List Record)) (m : String) :
    ((step s (Event.loadResolve (FetchOutcome.response true (BodyParse.parsed ef rf)))).notes
        = [] ∧
     (step s (Event.loadResolve (FetchOutcome.response true
        (BodyParse.parsed ef rf)))).state.records = rf.getD []) ∧
    ((step s (Event.loadResolve (FetchOutcome.response true (BodyParse.unparsable m)))).notes
        = [Notification.error (loadFailLabel ++ ": " ++ m)] ∧
     (step s (Event.loadResolve (FetchOutcome.response true
        (BodyParse.unparsable m)))).state.records = []) := by
  exact ⟨⟨rfl, rfl⟩, rfl, rfl⟩

/-- Resolution of claim C9: an in-flight load ending in a transport
failure. -/
def c9Out : StepOut :=
  step loadingState (Event.loadResolve (FetchOutcome.transportFailure "down"))

/-- Claim C9, counterexample: the loadRecords catch block itself emits
a toast error (line 126), so a reload failure is propagated to the user
as a notification — the component state has no lastError cell for the
view to inspect instead. -/
theorem c9_reload_failure_notifies :
    c9Out.notes = [Notification.error "Failed to load records: down"] ∧
    c9Out.notes ≠ [] := by
  decide

/-- Claim C9, amended: on every failing reload resolution the record
list becomes empty and loading becomes false, and the store itself
emits exactly one error notification carrying the failure message;
there is no lastError field — the view sees only records and loading. -/
theorem c9_reload_failure_state (s : AppState) (out : FetchOutcome)
    (h : loadFails out = true) :
    (step s (Event.loadResolve out)).state.records = [] ∧
    (step s (Event.loadResolve out)).state.loading = false ∧
    (step s (Event.loadResolve out)).notes
        = [Notification.error (loadFailLabel ++ ": " ++ loadFailMsg out)] := by
  cases out with
  | response ok b =>
      cases ok with
      | true =>
          cases b with
          | parsed ef rf => simp [loadFails] at h
          | unparsable m => exact ⟨rfl, rfl, rfl⟩
      | false =>
          cases b with
          | parsed ef rf => exact ⟨rfl, rfl, rfl⟩
          | unparsable m => exact ⟨rfl, rfl, rfl⟩
  | transportFailure m => exact ⟨rfl, rfl, rfl⟩

/-- Witness for the amended claim C9 at a concrete transport failure. -/
theorem c9_reload_failure_state_witness :
    loadFails (FetchOutcome.transportFailure "down") = true ∧
    ((step initState (Event.loadResolve (FetchOutcome.transportFailure "down"))).state.records
        = [] ∧
     (step initState (Event.loadResolve (FetchOutcome.transportFailure "down"))).state.loading
        = false ∧
     (step initState (Event.loadResolve (FetchOutcome.transportFailure "down"))).notes
        = [Notification.error (loadFailLabel ++ ": " ++
            loadFailMsg (FetchOutcome.transportFailure "down"))]) :=
  ⟨rfl, c9_reload_failure_state initState (FetchOutcome.transportFailure "down") rfl⟩

/-- Claim C10: from every state — in particular one retaining a stale
edit target from a dialog dismissed without cancel — openCreateDialog
clears the target first (line 210), so a save performed from the
create-opened dialog issues a POST against the collection path of the
active category and never a PUT against any record id. -/
theorem c10_create_dialog_saves_as_post (s : AppState) (d : Fields) (out : FetchOutcome) :
    (step s Event.openCreateDialog).state.editingRecord = none ∧
    saveRequestOf (step s Event.openCreateDialog).state d
        = Request.post s.activeSection d ∧
    Request.post s.activeSection d
        ∈ (step (step s Event.openCreateDialog).state (Event.save d out)).reqs ∧
    (∀ sec id b2, Request.put sec id b2
        ∉ (step (step s Event.openCreateDialog).state (Event.save d out)).reqs) := by
  cases out with
  | response ok b =>
      cases ok with
      | true =>
          cases b <;>
            simp [step, handleSave, saveRequestOf, loadRecordsStart]
      | false =>
          cases b <;>
            simp [step, handleSave, saveRequestOf, loadRecordsStart]
  | transportFailure m =>
      simp [step, handleSave, saveRequestOf, loadRecordsStart]

end MSDH
